import Mathlib

/-!
Shallow embedding of the GraphQL Factory front-end (graphql-schema-api).

The generation orchestrator lives in the page component
(`GraphQLFactoryPage`): React state fields `isLoading`, `generatedSchema`,
`exampleQueriesMutations`, `error`, `activeTab`, `lastFormValues`, and the
handlers `handleFormSubmit` and `handleSchemaEditAndRegenerate`.  The
gateway is the Genkit flow `generateGraphQLSchemaFlow`
(src/ai/flows/generate-graphql-schema.ts).  The views are
`DataSourceForm` (submit button, objectIdentifier validation) and
`SchemaViewer` (editing, download, placeholder rendering).

JavaScript nullable strings (`string | null | undefined`) are modelled as
`Option String`; `x || d` on such a value treats both absence and the
empty string as falsy, which `jsOrStr` / `jsOrNone` reproduce.  Each async
handler has a single suspension point (the awaited gateway call), so it is
modelled as a pure function of the pre-call state and the gateway
response; the response is a parameter, and the list of gateway calls the
handler issues is returned explicitly.
-/

/-- JavaScript `x || d` for `x : string | null | undefined`, `d : string`:
absence and the empty string are falsy. -/
def jsOrStr (x : Option String) (d : String) : String :=
  match x with
  | none => d
  | some s => if s = "" then d else s

/-- JavaScript `x || null` for `x : string | null | undefined`: collapses
absence and the empty string to `null`. -/
def jsOrNone (x : Option String) : Option String :=
  match x with
  | none => none
  | some s => if s = "" then none else some s

/-- JavaScript truthiness of a nullable string: present and non-empty. -/
def jsTruthy (x : Option String) : Bool :=
  match x with
  | none => false
  | some s => s ≠ ""

/-- JavaScript `String.prototype.trim`, modelled executably on the
character list (drop leading and trailing whitespace). -/
def jsTrim (s : String) : String :=
  String.mk (((s.data.dropWhile Char.isWhitespace).reverse.dropWhile
    Char.isWhitespace).reverse)

/-- JavaScript `String.prototype.startsWith`, modelled executably on the
character list. -/
def jsStartsWith (s pre : String) : Bool :=
  pre.data.isPrefixOf s.data

/-- `x && x.trim() !== ""` on a nullable string, as in the `hasSchema` /
`hasExamples` checks of the page component. -/
def jsHasContent (x : Option String) : Bool :=
  match x with
  | none => false
  | some s => s ≠ "" && jsTrim s ≠ ""

/-- `DataSourceFormValues` (data-source-form.tsx): `objectIdentifier` is
optional at the zod-schema level. -/
structure DataSourceFormValues where
  dataSourceType : String
  connectionString : String
  objectIdentifier : Option String
  deriving Repr, DecidableEq

/-- `GenerateGraphQLSchemaInput` (generate-graphql-schema.ts). -/
structure GenerateGraphQLSchemaInput where
  dataSourceType : String
  connectionString : String
  objectIdentifier : Option String
  editedSchema : Option String
  deriving Repr, DecidableEq

/-- `GenerateGraphQLSchemaOutput` (generate-graphql-schema.ts).
`graphqlSchema` is declared required by the zod schema, but both the flow
(`output.graphqlSchema || ""`) and the page (`result.graphqlSchema || ""`)
defend against it being absent, so it is modelled as optional; the same
type stands for the raw prompt output consumed by the flow. -/
structure GenerateGraphQLSchemaOutput where
  graphqlSchema : Option String
  exampleQueriesMutations : Option String
  deriving Repr, DecidableEq

/-- `generateGraphQLSchemaFlow` (generate-graphql-schema.ts lines 166-188):
given the flow input and the prompt output (`none` models a null/absent
output, which throws), produce the flow result or the thrown message.
When `editedSchema` was provided in the input the flow echoes it back as
`graphqlSchema` regardless of what the prompt returned (line 181). -/
def generateGraphQLSchemaFlow (input : GenerateGraphQLSchemaInput)
    (promptOutput : Option GenerateGraphQLSchemaOutput) :
    Except String GenerateGraphQLSchemaOutput :=
  match promptOutput with
  | none => .error "AI did not return any output."
  | some output =>
      let finalSchema :=
        match input.editedSchema with
        | some e => e
        | none => jsOrStr output.graphqlSchema ""
      .ok { graphqlSchema := some finalSchema,
            exampleQueriesMutations := output.exampleQueriesMutations }

/-- How an awaited `generateGraphQLSchema(...)` call settles, seen from a
page handler: it resolves with a result (`resolved none` models a falsy
result object, which the handlers turn into a thrown error), or it
rejects (`rejected (some m)` is an `Error` with message `m`;
`rejected none` a non-`Error` throw). -/
inductive GatewayResponse where
  | resolved (result : Option GenerateGraphQLSchemaOutput)
  | rejected (msg : Option String)
  deriving Repr, DecidableEq

/-- A gateway response `resolved (some _)` is a usable success; everything
else lands in the handler catch block. -/
def GatewayResponse.isFailure : GatewayResponse → Bool
  | .resolved (some _) => false
  | .resolved none => true
  | .rejected _ => true

/-- The gateway as actually wired: the page calls
`generateGraphQLSchema`, which runs the flow; a flow exception becomes a
rejected promise. -/
def flowGateway (input : GenerateGraphQLSchemaInput)
    (promptOutput : Option GenerateGraphQLSchemaOutput) : GatewayResponse :=
  match generateGraphQLSchemaFlow input promptOutput with
  | .ok out => .resolved (some out)
  | .error m => .rejected (some m)

/-- A toast notification (useToast); `destructive` is the variant flag. -/
structure Toast where
  destructive : Bool
  title : String
  description : String
  deriving Repr, DecidableEq

/-- The React state of `GraphQLFactoryPage` — the session state owned by
the orchestrator. -/
structure PageState where
  isLoading : Bool
  generatedSchema : Option String
  exampleQueriesMutations : Option String
  error : Option String
  activeTab : String
  lastFormValues : Option DataSourceFormValues
  deriving Repr, DecidableEq

/-- The initial page state: all `useState` defaults. -/
def initState : PageState :=
  { isLoading := false
    generatedSchema := none
    exampleQueriesMutations := none
    error := none
    activeTab := "schema"
    lastFormValues := none }

/-- Result of running a handler to completion: the final page state, the
gateway calls it issued (in order), and the toasts it fired. -/
structure HandlerResult where
  state : PageState
  calls : List GenerateGraphQLSchemaInput
  toasts : List Toast
  deriving Repr, DecidableEq

/-- The input `handleFormSubmit` builds for the gateway (page lines
31-35): no `editedSchema` field. -/
def submitInputOf (values : DataSourceFormValues) : GenerateGraphQLSchemaInput :=
  { dataSourceType := values.dataSourceType
    connectionString := values.connectionString
    objectIdentifier := values.objectIdentifier
    editedSchema := none }

/-- The input `handleSchemaEditAndRegenerate` builds (page lines 107-112),
from the stored `lastFormValues` plus the edited schema. -/
def regenInputOf (values : DataSourceFormValues) (editedSchema : String) :
    GenerateGraphQLSchemaInput :=
  { dataSourceType := values.dataSourceType
    connectionString := values.connectionString
    objectIdentifier := values.objectIdentifier
    editedSchema := some editedSchema }

/-- The synchronous prefix of `handleFormSubmit` (page lines 24-28), run
before the gateway call: set loading, clear error/schema/examples, record
the form values. There is no guard on `isLoading` here. -/
def handleFormSubmitStart (s : PageState) (values : DataSourceFormValues) :
    PageState :=
  { s with isLoading := true
           error := none
           generatedSchema := none
           exampleQueriesMutations := none
           lastFormValues := some values }

/-- The toast description classification of the submit success path
(page lines 42-59). -/
def submitSuccessDescription (result : GenerateGraphQLSchemaOutput) : String :=
  let hasSchema := jsHasContent result.graphqlSchema
  let hasExamples := jsHasContent result.exampleQueriesMutations
  if hasSchema && hasExamples then
    "GraphQL schema and example operations generated successfully."
  else if hasSchema && !hasExamples then
    "GraphQL schema generated. No example operations were provided for it."
  else if !hasSchema && hasExamples then
    "Example operations generated, but the schema was empty. This is unexpected."
  else
    if result.graphqlSchema = some "" && jsTruthy result.exampleQueriesMutations then
      "Schema is empty, but example operations were generated. This might indicate an issue."
    else if result.graphqlSchema = some "" then
      "The AI returned an empty schema. Try adjusting your input."
    else
      "Process complete. The AI did not return a schema. Example operations cannot be generated without a schema."

/-- The continuation of `handleFormSubmit` after the awaited gateway call
settles (page lines 36-88): success path, catch block, finally block. -/
def handleFormSubmitFinish (s : PageState) (resp : GatewayResponse) :
    PageState × List Toast :=
  match resp with
  | .resolved (some result) =>
      let hasExamples := jsHasContent result.exampleQueriesMutations
      ({ s with generatedSchema := some (jsOrStr result.graphqlSchema "")
                exampleQueriesMutations := jsOrNone result.exampleQueriesMutations
                activeTab := if hasExamples then "explorer" else "schema"
                isLoading := false },
       [{ destructive := false
          title := "Generation Complete"
          description := submitSuccessDescription result }])
  | .resolved none =>
      let errorMessage := "AI did not return any result structure."
      ({ s with error := some ("Failed to generate schema: " ++ errorMessage)
                generatedSchema := none
                exampleQueriesMutations := none
                activeTab := "schema"
                isLoading := false },
       [{ destructive := true
          title := "Schema Generation Failed"
          description := errorMessage }])
  | .rejected msg =>
      let errorMessage := msg.getD "An unknown error occurred."
      ({ s with error := some ("Failed to generate schema: " ++ errorMessage)
                generatedSchema := none
                exampleQueriesMutations := none
                activeTab := "schema"
                isLoading := false },
       [{ destructive := true
          title := "Schema Generation Failed"
          description := errorMessage }])

/-- `handleFormSubmit` (page lines 23-89), run to completion against the
given settling of its single gateway call. It always issues exactly one
gateway call. -/
def handleFormSubmit (s : PageState) (values : DataSourceFormValues)
    (resp : GatewayResponse) : HandlerResult :=
  let s1 := handleFormSubmitStart s values
  let (s2, toasts) := handleFormSubmitFinish s1 resp
  { state := s2, calls := [submitInputOf values], toasts := toasts }

/-- The toast fired when regeneration is requested with no stored form
values (page lines 92-99). -/
def missingContextToast : Toast :=
  { destructive := true
    title := "Cannot Regenerate Examples"
    description := "Initial data source information is missing. Please submit the form first." }

/-- `handleSchemaEditAndRegenerate` (page lines 91-144), run to completion
against the given settling of its gateway call.  With no `lastFormValues`
it fires a toast and returns before touching any state and before any
gateway call.  Otherwise it optimistically shows the edited schema,
clears the examples, then applies the success path or the catch block;
the catch block never reverts `generatedSchema`. -/
def handleSchemaEditAndRegenerate (s : PageState) (editedSchema : String)
    (resp : GatewayResponse) : HandlerResult :=
  match s.lastFormValues with
  | none => { state := s, calls := [], toasts := [missingContextToast] }
  | some lastFormValues =>
      let s1 := { s with isLoading := true
                         error := none
                         generatedSchema := some editedSchema
                         exampleQueriesMutations := none }
      let input := regenInputOf lastFormValues editedSchema
      match resp with
      | .resolved (some result) =>
          let hasExamples := jsHasContent result.exampleQueriesMutations
          { state :=
              { s1 with generatedSchema := some (jsOrStr result.graphqlSchema editedSchema)
                        exampleQueriesMutations := jsOrNone result.exampleQueriesMutations
                        activeTab := "explorer"
                        isLoading := false }
            calls := [input]
            toasts := [{ destructive := false
                         title := "API Examples Regenerated"
                         description :=
                           if hasExamples then
                             "Example operations regenerated based on your edited schema."
                           else
                             "No example operations were generated for the edited schema." }] }
      | .resolved none =>
          let errorMessage := "AI did not return any result structure for regeneration."
          { state :=
              { s1 with error := some ("Failed to regenerate API examples: " ++ errorMessage)
                        exampleQueriesMutations := none
                        activeTab := "explorer"
                        isLoading := false }
            calls := [input]
            toasts := [{ destructive := true
                         title := "API Example Regeneration Failed"
                         description := errorMessage }] }
      | .rejected msg =>
          let errorMessage := msg.getD "An unknown error occurred during regeneration."
          { state :=
              { s1 with error := some ("Failed to regenerate API examples: " ++ errorMessage)
                        exampleQueriesMutations := none
                        activeTab := "explorer"
                        isLoading := false }
            calls := [input]
            toasts := [{ destructive := true
                         title := "API Example Regeneration Failed"
                         description := errorMessage }] }

/-- The session status of the specification, read off the page state:
`Generating` while a gateway call is awaited (`isLoading`), `Failed` when
an error is recorded, `Ready` once a schema has been produced, `Idle`
before any attempt. -/
inductive SessionStatus where
  | Idle
  | Generating
  | Ready
  | Failed
  deriving Repr, DecidableEq

/-- Map the page state to the specification status. -/
def PageState.status (s : PageState) : SessionStatus :=
  if s.isLoading then .Generating
  else if s.error.isSome then .Failed
  else if s.generatedSchema.isSome then .Ready
  else .Idle

/-- The data source types for which `handleActualSubmit`
(data-source-form.tsx lines 100-115) requires a non-blank
`objectIdentifier`. -/
def objectIdentifierRequiredFor (dataSourceType : String) : Bool :=
  dataSourceType ∈ ["PostgreSQL", "MySQL", "SQL Server", "Oracle", "Salesforce", "MongoDB"]

/-- The validation of `handleActualSubmit`:
`!values.objectIdentifier || values.objectIdentifier.trim() === ""`. -/
def objectIdentifierBlank (objectIdentifier : Option String) : Bool :=
  match objectIdentifier with
  | none => true
  | some o => o = "" || jsTrim o = ""

/-- A form value set the form-level validation accepts. -/
def validFormValues (values : DataSourceFormValues) : Bool :=
  !(objectIdentifierRequiredFor values.dataSourceType &&
    objectIdentifierBlank values.objectIdentifier)

/-- `handleActualSubmit` (data-source-form.tsx lines 100-115): runs the
conditional `objectIdentifier` validation, then forwards to the page
`onSubmit` handler (`handleFormSubmit`); a validation failure sets a local
form error and stops without touching the page state. -/
def handleActualSubmit (s : PageState) (values : DataSourceFormValues)
    (resp : GatewayResponse) : HandlerResult :=
  if validFormValues values then handleFormSubmit s values resp
  else { state := s, calls := [], toasts := [] }

/-- The submit button of `DataSourceForm` is disabled exactly while
`isLoading` (data-source-form.tsx line 206). -/
def submitButtonDisabled (s : PageState) : Bool :=
  s.isLoading

/-- A user submit gesture on the form: a disabled submit control
dispatches nothing; otherwise the form runs `handleActualSubmit`. -/
def uiSubmitClick (s : PageState) (values : DataSourceFormValues)
    (resp : GatewayResponse) : HandlerResult :=
  if submitButtonDisabled s then { state := s, calls := [], toasts := [] }
  else handleActualSubmit s values resp

/-- The local state of `SchemaViewer` (schema-viewer.tsx lines 33-34). -/
structure ViewerState where
  isEditing : Bool
  editedSchemaContent : String
  deriving Repr, DecidableEq

/-- `currentDisplaySchema` (schema-viewer.tsx line 45): the draft while
editing, the page schema otherwise. -/
def currentDisplaySchema (v : ViewerState) (schema : Option String) :
    Option String :=
  if v.isEditing then some v.editedSchemaContent else schema

/-- `hasActualSchemaContent` (schema-viewer.tsx line 46): the displayed
schema is non-null, non-blank after trimming, and does not start with
`#`. -/
def hasActualSchemaContent (displaySchema : Option String) : Bool :=
  match displaySchema with
  | none => false
  | some s => jsTrim s ≠ "" && !(jsStartsWith s "#")

/-- The `disabled` expression of the Download button (schema-viewer.tsx
line 242): `isLoading || error !== null || !hasActualSchemaContent`. -/
def downloadDisabled (isLoading : Bool) (error : Option String)
    (displaySchema : Option String) : Bool :=
  isLoading || error.isSome || !(hasActualSchemaContent displaySchema)

/-- The file produced by a download: name, Blob content type, content. -/
structure DownloadFile where
  filename : String
  contentType : String
  content : String
  deriving Repr, DecidableEq

/-- `handleDownload` (schema-viewer.tsx lines 48-78): refuses (with a
toast, modelled as `none`) unless `hasActualSchemaContent`; otherwise
builds a Blob of the displayed schema typed
`application/graphql;charset=utf-8` and saves it as `schema.graphql`. -/
def handleDownload (displaySchema : Option String) : Option DownloadFile :=
  match displaySchema with
  | none => none
  | some s =>
      if hasActualSchemaContent (some s) then
        some { filename := "schema.graphql"
               contentType := "application/graphql;charset=utf-8"
               content := s }
      else none

/-- The placeholder text of the schema card when not loading, not in
error and not editing (schema-viewer.tsx lines 140-148); in that branch
the displayed schema is the page schema. -/
def placeholderMessage (schema : Option String) : String :=
  match schema with
  | none => "Use the form to generate a schema."
  | some s =>
      if hasActualSchemaContent (some s) then
        "Schema generated. Click \x27View Schema\x27 to display, \x27Edit Schema\x27 to modify, or \x27Download\x27 to save."
      else
        "The AI returned an empty schema. Try adjusting your input or edit the schema manually."

/-- The `isEditingAllowed` prop the page passes to `SchemaViewer`
(page line 169): a schema exists, even an empty one. -/
def isEditingAllowed (s : PageState) : Bool :=
  s.generatedSchema.isSome

/-- The `disabled` expression of the Save and Regenerate button
(schema-viewer.tsx line 220). -/
def saveButtonDisabled (isLoading : Bool) (v : ViewerState) : Bool :=
  isLoading || jsTrim v.editedSchemaContent = ""

/-- The toast fired by `handleSaveAndRegenerate` on a blank draft
(schema-viewer.tsx lines 95-102). -/
def emptySchemaToast : Toast :=
  { destructive := true
    title := "Cannot Save Empty Schema"
    description := "Please provide some schema content or cancel editing." }

/-- `handleSaveAndRegenerate` (schema-viewer.tsx lines 94-105): a blank
draft fires a toast and returns with editing mode and page state
untouched; otherwise it awaits `onSchemaEditAndRegenerate` on the draft
and then leaves editing mode. -/
def handleSaveAndRegenerate (v : ViewerState) (s : PageState)
    (resp : GatewayResponse) : ViewerState × HandlerResult :=
  if jsTrim v.editedSchemaContent = "" then
    (v, { state := s, calls := [], toasts := [emptySchemaToast] })
  else
    ({ v with isEditing := false },
     handleSchemaEditAndRegenerate s v.editedSchemaContent resp)

/-- Submit via the real pipeline: `handleFormSubmit` whose gateway call is
served by `generateGraphQLSchemaFlow` on the input the page builds. -/
def submitViaFlow (s : PageState) (values : DataSourceFormValues)
    (promptOutput : Option GenerateGraphQLSchemaOutput) : HandlerResult :=
  handleFormSubmit s values (flowGateway (submitInputOf values) promptOutput)

/-- Regenerate via the real pipeline: `handleSchemaEditAndRegenerate`
whose gateway call is served by `generateGraphQLSchemaFlow` on the input
the page builds from the stored form values. -/
def regenViaFlow (s : PageState) (editedSchema : String)
    (promptOutput : Option GenerateGraphQLSchemaOutput) : HandlerResult :=
  match s.lastFormValues with
  | none => handleSchemaEditAndRegenerate s editedSchema (.rejected none)
  | some lastFormValues =>
      handleSchemaEditAndRegenerate s editedSchema
        (flowGateway (regenInputOf lastFormValues editedSchema) promptOutput)

/-- An orchestrator operation of a session trace, paired with how its
gateway call (if any) settles. -/
inductive Op where
  | submit (values : DataSourceFormValues) (resp : GatewayResponse)
  | regen (editedSchema : String) (resp : GatewayResponse)
  deriving Repr, DecidableEq

/-- Run one operation on the page state. -/
def stepOp (s : PageState) : Op → HandlerResult
  | .submit values resp => handleFormSubmit s values resp
  | .regen editedSchema resp => handleSchemaEditAndRegenerate s editedSchema resp

/-- Run a trace of operations, threading the page state. -/
def runOps (s : PageState) : List Op → PageState
  | [] => s
  | op :: ops => runOps (stepOp s op).state ops

/-- Whether an operation is a submit. -/
def Op.isSubmit : Op → Bool
  | .submit _ _ => true
  | .regen _ _ => false

/-- `x || ""` on a present string is the string itself. -/
theorem jsOrStr_some_empty_default (x : String) : jsOrStr (some x) "" = x := by
  by_cases h : x = "" <;> simp [jsOrStr, h]

/-- `x || d` on a present string equal to the default is the default. -/
theorem jsOrStr_some_self (x : String) : jsOrStr (some x) x = x := by
  by_cases h : x = "" <;> simp [jsOrStr, h]

/-- The derived status is `Generating` exactly while `isLoading`. -/
theorem status_generating_iff (s : PageState) :
    s.status = SessionStatus.Generating ↔ s.isLoading = true := by
  unfold PageState.status
  by_cases h : s.isLoading
  · simp [h]
  · simp only [h]
    by_cases h2 : s.error.isSome <;> by_cases h3 : s.generatedSchema.isSome <;>
      simp [h, h2, h3]

/-- `jsOrNone` yields a value exactly on a present, non-empty string. -/
theorem jsOrNone_ne_none (x : Option String) :
    jsOrNone x ≠ none ↔ ∃ t, x = some t ∧ t ≠ "" := by
  cases x with
  | none => simp [jsOrNone]
  | some s => by_cases h : s = "" <;> simp [jsOrNone, h]

/-- `handleSchemaEditAndRegenerate` never touches `lastFormValues`. -/
theorem regen_preserves_lastFormValues (s : PageState) (editedSchema : String)
    (resp : GatewayResponse) :
    (handleSchemaEditAndRegenerate s editedSchema resp).state.lastFormValues
      = s.lastFormValues := by
  unfold handleSchemaEditAndRegenerate
  cases h : s.lastFormValues with
  | none => simp [h]
  | some lfv =>
      cases resp with
      | resolved result => cases result <;> simp [h]
      | rejected msg => simp [h]

/-- `handleFormSubmit` records the submitted values as `lastFormValues`
whatever the gateway does. -/
theorem submit_sets_lastFormValues (s : PageState) (values : DataSourceFormValues)
    (resp : GatewayResponse) :
    (handleFormSubmit s values resp).state.lastFormValues = some values := by
  unfold handleFormSubmit handleFormSubmitFinish handleFormSubmitStart
  cases resp with
  | resolved result => cases result <;> simp
  | rejected msg => simp

/-- A concrete valid form value set, used in concrete scenarios. -/
def sampleValues : DataSourceFormValues :=
  { dataSourceType := "PostgreSQL"
    connectionString := "postgres://x"
    objectIdentifier := some "users" }

/-- A concrete in-flight session: a generation is awaited while a schema
from an earlier round is still displayed. -/
def inflightState : PageState :=
  { isLoading := true
    generatedSchema := some "type Q"
    exampleQueriesMutations := none
    error := none
    activeTab := "schema"
    lastFormValues := none }

/-- C1: the claim as stated is false of the orchestrator operation
itself: `handleFormSubmit` has no re-entrancy guard, so invoking it on a
state with `status = Generating` and a valid request issues a gateway
call and changes the session state. -/
theorem C1_counterexample :
    inflightState.status = SessionStatus.Generating ∧
    validFormValues sampleValues = true ∧
    (handleFormSubmit inflightState sampleValues (GatewayResponse.resolved none)).calls ≠ [] ∧
    (handleFormSubmit inflightState sampleValues (GatewayResponse.resolved none)).state
      ≠ inflightState := by
  decide

/-- C1 (amended): while `status = Generating` the submit control of
`DataSourceForm` is disabled, so a user submit gesture is a no-op — the
page state is unchanged and no gateway call is issued; the guard lives in
the view, not in `handleFormSubmit`. -/
theorem C1_generating_submit_noop (s : PageState) (values : DataSourceFormValues)
    (resp : GatewayResponse) (h : s.status = SessionStatus.Generating) :
    uiSubmitClick s values resp = { state := s, calls := [], toasts := [] } := by
  have hl : s.isLoading = true := (status_generating_iff s).mp h
  simp [uiSubmitClick, submitButtonDisabled, hl]

/-- C1 witness: the amended no-op at the concrete in-flight state. -/
theorem C1_generating_submit_noop_witness :
    inflightState.status = SessionStatus.Generating ∧
    uiSubmitClick inflightState sampleValues (GatewayResponse.resolved none)
      = { state := inflightState, calls := [], toasts := [] } :=
  ⟨by decide,
   C1_generating_submit_noop inflightState sampleValues
     (GatewayResponse.resolved none) (by decide)⟩

/-- C3: a failed regeneration (with stored form values) leaves the
optimistically set edited text in place: the state is `Failed` with an
error recorded, the examples are cleared, and `schema` still holds the
edited text. -/
theorem C3_regen_failure_keeps_edit (s : PageState) (fv : DataSourceFormValues)
    (editedSchema : String) (resp : GatewayResponse)
    (hlast : s.lastFormValues = some fv)
    (hblank : jsTrim editedSchema ≠ "")
    (hfail : resp.isFailure = true) :
    ((handleSchemaEditAndRegenerate s editedSchema resp).state.status
        = SessionStatus.Failed) ∧
    (handleSchemaEditAndRegenerate s editedSchema resp).state.error.isSome = true ∧
    (handleSchemaEditAndRegenerate s editedSchema resp).state.exampleQueriesMutations
      = none ∧
    (handleSchemaEditAndRegenerate s editedSchema resp).state.generatedSchema
      = some editedSchema := by
  unfold handleSchemaEditAndRegenerate
  cases resp with
  | resolved result =>
      cases result with
      | none => simp [hlast, PageState.status]
      | some r => simp [GatewayResponse.isFailure] at hfail
  | rejected msg => simp [hlast, PageState.status]

/-- The post-submit session used to exercise regeneration concretely. -/
def submittedState : PageState :=
  { initState with lastFormValues := some sampleValues }

/-- C3 witness: the failed-regeneration frame condition at a concrete
state and rejection. -/
theorem C3_regen_failure_keeps_edit_witness :
    ((handleSchemaEditAndRegenerate submittedState "type User" (GatewayResponse.rejected (some "boom"))).state.status
        = SessionStatus.Failed) ∧
    (handleSchemaEditAndRegenerate submittedState "type User" (GatewayResponse.rejected (some "boom"))).state.error.isSome = true ∧
    (handleSchemaEditAndRegenerate submittedState "type User" (GatewayResponse.rejected (some "boom"))).state.exampleQueriesMutations
      = none ∧
    (handleSchemaEditAndRegenerate submittedState "type User" (GatewayResponse.rejected (some "boom"))).state.generatedSchema
      = some "type User" :=
  C3_regen_failure_keeps_edit submittedState sampleValues "type User"
    (GatewayResponse.rejected (some "boom")) rfl (by decide) rfl

/-- C4: the claim as stated is false: when the gateway rejects with
message "network timeout", the recorded `error` is the prefixed string
"Failed to generate schema: network timeout", not the message verbatim. -/
theorem C4_counterexample :
    ((handleFormSubmit initState sampleValues
        (GatewayResponse.rejected (some "network timeout"))).state.error
      ≠ some "network timeout") ∧
    (handleFormSubmit initState sampleValues
        (GatewayResponse.rejected (some "network timeout"))).state.error
      = some "Failed to generate schema: network timeout" := by
  decide

/-- C4 (amended): a submit whose gateway call rejects with message `m`
ends `Failed` with `schema = null`, `examples = null`, and `error` equal
to `m` prefixed with "Failed to generate schema: ". -/
theorem C4_failed_submit (s : PageState) (values : DataSourceFormValues)
    (m : String) :
    ((handleFormSubmit s values (GatewayResponse.rejected (some m))).state.status
        = SessionStatus.Failed) ∧
    (handleFormSubmit s values (GatewayResponse.rejected (some m))).state.generatedSchema
      = none ∧
    (handleFormSubmit s values (GatewayResponse.rejected (some m))).state.exampleQueriesMutations
      = none ∧
    (handleFormSubmit s values (GatewayResponse.rejected (some m))).state.error
      = some ("Failed to generate schema: " ++ m) := by
  unfold handleFormSubmit handleFormSubmitFinish handleFormSubmitStart
  simp [PageState.status]

/-- C5: the claim as stated is false: a whitespace-only examples string
from the gateway is blank after trimming, yet the stored examples are
non-null (`result.exampleQueriesMutations || null` only nullifies the
exactly-empty string). -/
theorem C5_counterexample :
    (jsTrim " " = "") ∧
    (handleFormSubmit initState sampleValues
        (GatewayResponse.resolved (some { graphqlSchema := some "type Q"
                                          exampleQueriesMutations := some " " }))).state.exampleQueriesMutations
      ≠ none := by
  decide

/-- C5 (amended): after a successful submit the schema is non-null
(missing schema normalized to the empty string), and the examples are
non-null iff the gateway supplied a non-empty examples string — a
whitespace-only string counts as supplied and is kept. -/
theorem C5_submit_success (s : PageState) (values : DataSourceFormValues)
    (out : GenerateGraphQLSchemaOutput) :
    ((handleFormSubmit s values (GatewayResponse.resolved (some out))).state.generatedSchema
        ≠ none) ∧
    ((handleFormSubmit s values (GatewayResponse.resolved (some out))).state.exampleQueriesMutations
        ≠ none ↔ ∃ t, out.exampleQueriesMutations = some t ∧ t ≠ "") := by
  unfold handleFormSubmit handleFormSubmitFinish handleFormSubmitStart
  simp [jsOrNone_ne_none]

/-- C2: round-trip.  A successful submit (through the real flow) stores
the normalized schema text and reaches `Ready`; regenerating with exactly
that text yields that same text again, whatever the prompt returns on the
second round (echo forced by the flow, fallback in the page) and even if
the second round fails. -/
theorem C2_round_trip (s0 : PageState) (values : DataSourceFormValues)
    (p1 : GenerateGraphQLSchemaOutput) :
    ((submitViaFlow s0 values (some p1)).state.generatedSchema
        = some (jsOrStr p1.graphqlSchema "")) ∧
    (submitViaFlow s0 values (some p1)).state.status = SessionStatus.Ready ∧
    ∀ p2 : Option GenerateGraphQLSchemaOutput,
      ((regenViaFlow (submitViaFlow s0 values (some p1)).state
          (jsOrStr p1.graphqlSchema "") p2).state.generatedSchema
        = some (jsOrStr p1.graphqlSchema "")) := by
  have hstate : (submitViaFlow s0 values (some p1)).state =
      { isLoading := false
        generatedSchema := some (jsOrStr p1.graphqlSchema "")
        exampleQueriesMutations := jsOrNone p1.exampleQueriesMutations
        error := none
        activeTab :=
          if jsHasContent p1.exampleQueriesMutations then "explorer" else "schema"
        lastFormValues := some values } := by
    simp [submitViaFlow, flowGateway, generateGraphQLSchemaFlow, submitInputOf,
      handleFormSubmit, handleFormSubmitStart, handleFormSubmitFinish,
      jsOrStr_some_empty_default]
  refine ⟨by rw [hstate], by rw [hstate]; simp [PageState.status], ?_⟩
  intro p2
  rw [hstate]
  cases p2 with
  | none =>
      simp [regenViaFlow, flowGateway, generateGraphQLSchemaFlow,
        handleSchemaEditAndRegenerate]
  | some p2v =>
      simp [regenViaFlow, flowGateway, generateGraphQLSchemaFlow, regenInputOf,
        handleSchemaEditAndRegenerate, jsOrStr_some_self]

/-- C6: a successful submit whose gateway result carries an empty or
absent schema and no examples ends `Ready` with `schema = ""` and
`examples = null`, and the view distinguishes "generated but empty"
(`schema = some ""`) from "never generated" (`schema = none`) both in the
placeholder text and in the enabling of the edit control. -/
theorem C6_empty_schema (s0 : PageState) (values : DataSourceFormValues)
    (g : Option String) (hg : g = none ∨ g = some "") :
    ((handleFormSubmit s0 values (GatewayResponse.resolved
        (some { graphqlSchema := g, exampleQueriesMutations := none }))).state.status
      = SessionStatus.Ready) ∧
    (handleFormSubmit s0 values (GatewayResponse.resolved
        (some { graphqlSchema := g, exampleQueriesMutations := none }))).state.generatedSchema
      = some "" ∧
    (handleFormSubmit s0 values (GatewayResponse.resolved
        (some { graphqlSchema := g, exampleQueriesMutations := none }))).state.exampleQueriesMutations
      = none ∧
    placeholderMessage (some "") ≠ placeholderMessage none ∧
    isEditingAllowed (handleFormSubmit s0 values (GatewayResponse.resolved
        (some { graphqlSchema := g, exampleQueriesMutations := none }))).state = true ∧
    isEditingAllowed initState = false := by
  rcases hg with rfl | rfl <;>
    refine ⟨?_, ?_, ?_, by decide, ?_, by decide⟩ <;>
      simp [handleFormSubmit, handleFormSubmitStart, handleFormSubmitFinish,
        jsOrStr, jsOrNone, jsHasContent, PageState.status, isEditingAllowed]

/-- C6 witness: the empty-schema scenario at concrete inputs. -/
theorem C6_empty_schema_witness :
    ((handleFormSubmit initState sampleValues (GatewayResponse.resolved
        (some { graphqlSchema := some "", exampleQueriesMutations := none }))).state.status
      = SessionStatus.Ready) ∧
    (handleFormSubmit initState sampleValues (GatewayResponse.resolved
        (some { graphqlSchema := some "", exampleQueriesMutations := none }))).state.generatedSchema
      = some "" ∧
    (handleFormSubmit initState sampleValues (GatewayResponse.resolved
        (some { graphqlSchema := some "", exampleQueriesMutations := none }))).state.exampleQueriesMutations
      = none ∧
    placeholderMessage (some "") ≠ placeholderMessage none ∧
    isEditingAllowed (handleFormSubmit initState sampleValues (GatewayResponse.resolved
        (some { graphqlSchema := some "", exampleQueriesMutations := none }))).state = true ∧
    isEditingAllowed initState = false :=
  C6_empty_schema initState sampleValues (some "") (Or.inr rfl)

/-- C7: regeneration with no stored form values leaves the whole page
state untouched, issues no gateway call, and reports the failure
synchronously as a destructive toast, not through the `error` field. -/
theorem C7_missing_context (s : PageState) (editedSchema : String)
    (resp : GatewayResponse) (h : s.lastFormValues = none) :
    handleSchemaEditAndRegenerate s editedSchema resp
      = { state := s, calls := [], toasts := [missingContextToast] } ∧
    missingContextToast.destructive = true := by
  unfold handleSchemaEditAndRegenerate
  simp [h, missingContextToast]

/-- C7 witness: the missing-context rejection at the initial state. -/
theorem C7_missing_context_witness :
    handleSchemaEditAndRegenerate initState "type User" (GatewayResponse.rejected none)
      = { state := initState, calls := [], toasts := [missingContextToast] } ∧
    missingContextToast.destructive = true :=
  C7_missing_context initState "type User" (GatewayResponse.rejected none) rfl

/-- C8: saving a blank (empty or whitespace-only) draft never reaches the
page handler: no gateway call, editing mode stays active, the page state
(including its `error` field) is untouched; the save button is disabled
for such a draft as well. -/
theorem C8_blank_save (v : ViewerState) (s : PageState) (resp : GatewayResponse)
    (hedit : v.isEditing = true) (hblank : jsTrim v.editedSchemaContent = "") :
    ((handleSaveAndRegenerate v s resp).1.isEditing = true) ∧
    (handleSaveAndRegenerate v s resp).2.calls = [] ∧
    (handleSaveAndRegenerate v s resp).2.state = s ∧
    saveButtonDisabled true v = true ∧
    saveButtonDisabled false v = true := by
  unfold handleSaveAndRegenerate saveButtonDisabled
  simp [hblank, hedit]

/-- C8 witness: a whitespace-only draft at a concrete editing state. -/
theorem C8_blank_save_witness :
    ((handleSaveAndRegenerate { isEditing := true, editedSchemaContent := "  " }
        submittedState (GatewayResponse.rejected none)).1.isEditing = true) ∧
    (handleSaveAndRegenerate { isEditing := true, editedSchemaContent := "  " }
        submittedState (GatewayResponse.rejected none)).2.calls = [] ∧
    (handleSaveAndRegenerate { isEditing := true, editedSchemaContent := "  " }
        submittedState (GatewayResponse.rejected none)).2.state = submittedState ∧
    saveButtonDisabled true { isEditing := true, editedSchemaContent := "  " } = true ∧
    saveButtonDisabled false { isEditing := true, editedSchemaContent := "  " } = true :=
  C8_blank_save { isEditing := true, editedSchemaContent := "  " }
    submittedState (GatewayResponse.rejected none) rfl (by decide)

/-- C9: the claim as stated is false: a displayed schema that is non-null
and non-blank but begins with `#` (a GraphQL comment) is refused by the
download control even with no error and no generation in flight, because
`hasActualSchemaContent` also requires the text not to start with `#`. -/
theorem C9_counterexample :
    (jsTrim "# commented schema" ≠ "") ∧
    downloadDisabled false none (some "# commented schema") = true ∧
    handleDownload (some "# commented schema") = none := by
  decide

/-- C9 (amended): the download affordance saves the displayed text
verbatim as `schema.graphql` with Blob content type
`application/graphql;charset=utf-8`, and it is disabled exactly when a
generation is in flight, an error is present, or the displayed schema is
null, blank after trimming, or starts with `#`. -/
theorem C9_download_contract (isLoading : Bool) (error : Option String)
    (s b c : String)
    (hs1 : jsTrim s ≠ "") (hs2 : jsStartsWith s "#" = false)
    (hb : jsTrim b = "") (hc : jsStartsWith c "#" = true) :
    (downloadDisabled isLoading error (some s) = false ↔
      (isLoading = false ∧ error = none)) ∧
    handleDownload (some s)
      = some { filename := "schema.graphql"
               contentType := "application/graphql;charset=utf-8"
               content := s } ∧
    downloadDisabled isLoading error none = true ∧
    downloadDisabled false none (some b) = true ∧
    downloadDisabled false none (some c) = true := by
  refine ⟨?_, ?_, ?_, ?_, ?_⟩
  · cases isLoading <;> cases error <;>
      simp [downloadDisabled, hasActualSchemaContent, hs1, hs2]
  · simp [handleDownload, hasActualSchemaContent, hs1, hs2]
  · cases isLoading <;> cases error <;>
      simp [downloadDisabled, hasActualSchemaContent]
  · simp [downloadDisabled, hasActualSchemaContent, hb]
  · simp [downloadDisabled, hasActualSchemaContent, hc]

/-- C9 witness: the download contract at concrete display texts. -/
theorem C9_download_contract_witness :
    (downloadDisabled false none (some "type Query") = false ↔
      (false = false ∧ (none : Option String) = none)) ∧
    handleDownload (some "type Query")
      = some { filename := "schema.graphql"
               contentType := "application/graphql;charset=utf-8"
               content := "type Query" } ∧
    downloadDisabled false none none = true ∧
    downloadDisabled false none (some "  ") = true ∧
    downloadDisabled false none (some "# note") = true :=
  C9_download_contract false none "type Query" "  " "# note"
    (by decide) (by decide) (by decide) (by decide)

/-- Any operation starting from a state that already stores form values
leaves `lastFormValues` non-null. -/
theorem runOps_preserves_lastFormValues (ops : List Op) :
    ∀ s : PageState, s.lastFormValues ≠ none →
      (runOps s ops).lastFormValues ≠ none := by
  induction ops with
  | nil => intro s h; exact h
  | cons op rest ih =>
      intro s h
      show (runOps (stepOp s op).state rest).lastFormValues ≠ none
      apply ih
      cases op with
      | submit values resp => simp [stepOp, submit_sets_lastFormValues]
      | regen editedSchema resp =>
          simpa [stepOp, regen_preserves_lastFormValues] using h

/-- Any trace containing at least one submit ends with `lastFormValues`
non-null, from any starting state. -/
theorem runOps_submit_lastFormValues (ops : List Op) :
    ∀ s : PageState, (∃ op ∈ ops, op.isSubmit = true) →
      (runOps s ops).lastFormValues ≠ none := by
  induction ops with
  | nil =>
      rintro s ⟨op, hmem, _⟩
      simp at hmem
  | cons op rest ih =>
      rintro s ⟨op2, hmem, hsub⟩
      show (runOps (stepOp s op).state rest).lastFormValues ≠ none
      rcases List.mem_cons.mp hmem with rfl | hmem2
      · cases op2 with
        | submit values resp =>
            apply runOps_preserves_lastFormValues
            simp [stepOp, submit_sets_lastFormValues]
        | regen editedSchema resp => simp [Op.isSubmit] at hsub
      · exact ih _ ⟨op2, hmem2, hsub⟩

/-- C10: `lastFormValues` is recorded in the synchronous prefix of every
submit, before the gateway call, and is retained whatever the gateway
does; hence after any trace containing a submit attempt, a regeneration
passes the missing-context guard — it issues a gateway call and fires no
missing-context toast.  A missing-context rejection can only happen
before the first submit attempt of the session. -/
theorem C10_lastRequest_retained (s0 : PageState) (values : DataSourceFormValues)
    (resp : GatewayResponse) (ops : List Op) (editedSchema : String)
    (resp2 : GatewayResponse)
    (hops : ∃ op ∈ ops, op.isSubmit = true)
    (hblank : jsTrim editedSchema ≠ "") :
    ((handleFormSubmitStart s0 values).lastFormValues = some values) ∧
    ((handleFormSubmit s0 values resp).state.lastFormValues = some values) ∧
    ((runOps initState ops).lastFormValues ≠ none) ∧
    ((handleSchemaEditAndRegenerate (runOps initState ops) editedSchema resp2).calls
      ≠ []) ∧
    missingContextToast ∉
      (handleSchemaEditAndRegenerate (runOps initState ops) editedSchema resp2).toasts := by
  have hlast := runOps_submit_lastFormValues ops initState hops
  obtain ⟨lfv, hlfv⟩ := Option.ne_none_iff_exists'.mp hlast
  refine ⟨by simp [handleFormSubmitStart], submit_sets_lastFormValues s0 values resp,
    hlast, ?_, ?_⟩
  · unfold handleSchemaEditAndRegenerate
    cases resp2 with
    | resolved result => cases result <;> simp [hlfv]
    | rejected msg => simp [hlfv]
  · unfold handleSchemaEditAndRegenerate
    cases resp2 with
    | resolved result =>
        cases result <;> simp [hlfv, missingContextToast]
    | rejected msg => simp [hlfv, missingContextToast]

/-- C10 witness: after one failed submit, a concrete regeneration issues
its gateway call and fires no missing-context toast. -/
theorem C10_lastRequest_retained_witness :
    ((handleFormSubmitStart initState sampleValues).lastFormValues = some sampleValues) ∧
    ((handleFormSubmit initState sampleValues (GatewayResponse.rejected (some "boom"))).state.lastFormValues
      = some sampleValues) ∧
    ((runOps initState [Op.submit sampleValues (GatewayResponse.rejected (some "boom"))]).lastFormValues
      ≠ none) ∧
    ((handleSchemaEditAndRegenerate
        (runOps initState [Op.submit sampleValues (GatewayResponse.rejected (some "boom"))])
        "type Query" (GatewayResponse.rejected none)).calls ≠ []) ∧
    missingContextToast ∉
      (handleSchemaEditAndRegenerate
        (runOps initState [Op.submit sampleValues (GatewayResponse.rejected (some "boom"))])
        "type Query" (GatewayResponse.rejected none)).toasts :=
  C10_lastRequest_retained initState sampleValues
    (GatewayResponse.rejected (some "boom"))
    [Op.submit sampleValues (GatewayResponse.rejected (some "boom"))]
    "type Query" (GatewayResponse.rejected none)
    ⟨Op.submit sampleValues (GatewayResponse.rejected (some "boom")), by decide, rfl⟩
    (by decide)
